import Mathlib

/-!
Verification of the `hello_ops` HTTP service (src/app/main.py) against its
specification. The application registers two GET routes on a FastAPI `app`:

  @app.get("/health")  → `def health(): return {"status": "ok"}`
  @app.get("/hello")   → `def hello(name: str): return {"message": f"hello {name}"}`

We embed the JSON values exchanged, the two handlers, the framework's
query-parameter validation for the required `name` parameter (whose observable
shape — status 422 with `detail[0]["msg"] == "Field required"` — is asserted by
the repository's own tests in src/tests/test_health.py), and the request
dispatch over the registered route table.
-/

namespace HelloOps

/-- A JSON value, enough to express the bodies the service produces:
objects, arrays, strings, and null. -/
inductive Json where
  | null : Json
  | str : String → Json
  | arr : List Json → Json
  | obj : List (String × Json) → Json
deriving Repr

/-- Look up a key in a JSON object; `none` on non-objects or absent keys. -/
def Json.getField : Json → String → Option Json
  | .obj fields, k => (fields.find? (fun p => p.1 == k)).map Prod.snd
  | _, _ => none

/-- Index into a JSON array; `none` on non-arrays or out-of-range indices. -/
def Json.getIndex : Json → Nat → Option Json
  | .arr items, i => items.get? i
  | _, _ => none

/-- Extract the string of a JSON string value. -/
def Json.getStr : Json → Option String
  | .str s => some s
  | _ => none

/-- An HTTP request as the application observes it: method, path, and the
decoded query parameters in order of appearance. -/
structure Request where
  method : String
  path : String
  query : List (String × String)

/-- An HTTP response: status code and JSON body. -/
structure Response where
  status : Nat
  body : Json

/-- First value bound to key `k` among the query parameters, as the framework
resolves a scalar query parameter. -/
def lookupQuery (q : List (String × String)) (k : String) : Option String :=
  (q.find? (fun p => p.1 == k)).map Prod.snd

/-- Handler of `GET /health` (src/app/main.py lines 6-8):
`return {"status": "ok"}`. -/
def health : Json :=
  Json.obj [("status", Json.str "ok")]

/-- Handler of `GET /hello` (src/app/main.py lines 11-13):
`return {"message": f"hello {name}"}`. -/
def hello (name : String) : Json :=
  Json.obj [("message", Json.str ("hello " ++ name))]

/-- The 422 validation body FastAPI produces when the required query parameter
`name` of `hello` is missing; its observable shape is fixed by the assertion
`body["detail"][0]["msg"] == "Field required"` in src/tests/test_health.py. -/
def missingNameError : Json :=
  Json.obj [("detail", Json.arr [Json.obj
    [("type", Json.str "missing"),
     ("loc", Json.arr [Json.str "query", Json.str "name"]),
     ("msg", Json.str "Field required"),
     ("input", Json.null)]])]

/-- The route table registered on the FastAPI `app` by the two decorators in
src/app/main.py: method/path pairs of the application-defined routes. -/
def appRoutes : List (String × String) :=
  [("GET", "/health"), ("GET", "/hello")]

/-- Dispatch of one request over the registered routes, including the
framework's validation of `hello`'s required `name : str` query parameter:
`none` when no application route matches the method/path pair. -/
def handleRequest (req : Request) : Option Response :=
  if req.method == "GET" && req.path == "/health" then
    some ⟨200, health⟩
  else if req.method == "GET" && req.path == "/hello" then
    match lookupQuery req.query "name" with
    | some name => some ⟨200, hello name⟩
    | none => some ⟨422, missingNameError⟩
  else
    none

/-- The application object's observable state: the title and route table set
up once at import time by `FastAPI(title="hello_ops")` and the decorators.
Neither handler body touches it. -/
structure App where
  title : String
  routes : List (String × String)

/-- The application as constructed in src/app/main.py. -/
def app : App :=
  { title := "hello_ops", routes := appRoutes }

/-- One request step against the application: the handlers only construct and
return a response, so the application state passes through unchanged. -/
def handleStep (s : App) (req : Request) : App × Option Response :=
  (s, handleRequest req)

/-- Run a sequence of requests, threading the application state. -/
def runApp (s : App) : List Request → App × List (Option Response)
  | [] => (s, [])
  | r :: rs =>
    let step := handleStep s r
    let rest := runApp step.1 rs
    (rest.1, step.2 :: rest.2)

/-- Recover the name from a greeting message by dropping the six characters of
the fixed greeting `"hello "` (the claimed inverse of the greeting map). -/
def stripHello (s : String) : String :=
  ⟨s.data.drop 6⟩

/-- The application state is invariant under any run of requests. -/
theorem runApp_state_const (s : App) (hist : List Request) : (runApp s hist).1 = s := by
  induction hist with
  | nil => rfl
  | cons r rs ih => simpa [runApp, handleStep] using ih

/-- C1: for every non-empty string `name` supplied as the `name` query
parameter, `GET /hello` returns status 200 with body
`{"message": "hello <name>"}`, the fixed greeting concatenated with the
supplied value. -/
theorem hello_returns_greeting (q : List (String × String)) (name : String)
    (hne : name ≠ "") (hq : lookupQuery q "name" = some name) :
    handleRequest ⟨"GET", "/hello", q⟩ =
      some ⟨200, Json.obj [("message", Json.str ("hello " ++ name))]⟩ := by
  simp [handleRequest, hq, hello]

/-- Witness for C1 at the concrete scenario `name = "Ada"`. -/
theorem hello_returns_greeting_witness :
    "Ada" ≠ "" ∧ handleRequest ⟨"GET", "/hello", [("name", "Ada")]⟩ =
      some ⟨200, Json.obj [("message", Json.str ("hello " ++ "Ada"))]⟩ :=
  ⟨by decide, hello_returns_greeting [("name", "Ada")] "Ada" (by decide) rfl⟩

/-- C2: every `GET /hello` request omitting the `name` query parameter gets
status 422 and a structured validation-error body whose first detail entry's
message field equals `"Field required"`. -/
theorem hello_missing_name_422 (q : List (String × String))
    (hq : lookupQuery q "name" = none) :
    handleRequest ⟨"GET", "/hello", q⟩ = some ⟨422, missingNameError⟩ ∧
    (((missingNameError.getField "detail").bind (fun d => d.getIndex 0)).bind
      (fun e => e.getField "msg")).bind Json.getStr = some "Field required" := by
  refine ⟨?_, rfl⟩
  simp [handleRequest, hq]

/-- Witness for C2 at the empty query string. -/
theorem hello_missing_name_422_witness :
    lookupQuery [] "name" = none ∧
    (handleRequest ⟨"GET", "/hello", []⟩ = some ⟨422, missingNameError⟩ ∧
    (((missingNameError.getField "detail").bind (fun d => d.getIndex 0)).bind
      (fun e => e.getField "msg")).bind Json.getStr = some "Field required") :=
  ⟨rfl, hello_missing_name_422 [] rfl⟩

/-- C3: every `GET /health` request, whatever its query content, returns
status 200 with body exactly `{"status": "ok"}`. -/
theorem health_always_ok (q : List (String × String)) :
    handleRequest ⟨"GET", "/health", q⟩ =
      some ⟨200, Json.obj [("status", Json.str "ok")]⟩ := by
  simp [handleRequest, health]

/-- C4: the greeting endpoint reports a validation error if and only if the
required `name` query parameter is missing; whenever `name` is present the
handler succeeds with status 200, and these are the only outcomes. -/
theorem hello_error_iff_missing (q : List (String × String)) (r : Response)
    (h : handleRequest ⟨"GET", "/hello", q⟩ = some r) :
    (r.status = 422 ↔ lookupQuery q "name" = none) ∧
    (r.status = 200 ↔ (lookupQuery q "name").isSome) ∧
    (r.status = 422 ∨ r.status = 200) := by
  cases hq : lookupQuery q "name" with
  | none =>
    simp only [handleRequest, hq] at h
    simp at h
    simp [← h, hq]
  | some name =>
    simp only [handleRequest, hq] at h
    simp at h
    simp [← h, hq]

/-- Witness for C4 at a request carrying `name = "Ada"`. -/
theorem hello_error_iff_missing_witness :
    ((200 = 422 ↔ lookupQuery [("name", "Ada")] "name" = none) ∧
     (200 = 200 ↔ (lookupQuery [("name", "Ada")] "name").isSome) ∧
     ((200 : Nat) = 422 ∨ (200 : Nat) = 200)) :=
  hello_error_iff_missing [("name", "Ada")] ⟨200, hello "Ada"⟩ rfl

/-- C5: handlers are pure functions of their request: the response produced by
a handler step does not depend on which requests were served before it. -/
theorem handlers_stateless (hist₁ hist₂ : List Request) (r : Request) :
    handleStep (runApp app hist₁).1 r = handleStep (runApp app hist₂).1 r := by
  rw [runApp_state_const, runApp_state_const]

/-- C6: supplying `name` with the empty string is accepted: status 200 and
body `{"message": "hello "}`. -/
theorem hello_empty_name_accepted :
    handleRequest ⟨"GET", "/hello", [("name", "")]⟩ =
      some ⟨200, Json.obj [("message", Json.str "hello ")]⟩ := rfl

/-- C7: no request mutates application state: one handler step leaves the
application exactly as it was. -/
theorem handle_frame (s : App) (r : Request) : (handleStep s r).1 = s := rfl

/-- C8: the route table registered by the application holds exactly
`GET /health` and `GET /hello`, and dispatch finds a handler exactly for the
method/path pairs in that table. -/
theorem route_table_exact (m p : String) (q : List (String × String)) :
    app.routes = [("GET", "/health"), ("GET", "/hello")] ∧
    ((handleRequest ⟨m, p, q⟩).isSome ↔ (m, p) ∈ app.routes) := by
  refine ⟨rfl, ?_⟩
  simp only [handleRequest, app, appRoutes]
  by_cases h₁ : m = "GET" ∧ p = "/health"
  · simp [h₁.1, h₁.2]
  · by_cases h₂ : m = "GET" ∧ p = "/hello"
    · rcases h₂ with ⟨hm, hp⟩
      subst hm; subst hp
      have hne : ("/hello" : String) ≠ "/health" := by decide
      cases hq : lookupQuery q "name" <;> simp [hq, hne]
    · have hb₁ : (m == "GET" && p == "/health") = false := by
        rcases not_and_or.mp h₁ with hm | hp
        · simp [beq_eq_false_iff_ne.mpr hm]
        · simp [beq_eq_false_iff_ne.mpr hp]
      have hb₂ : (m == "GET" && p == "/hello") = false := by
        rcases not_and_or.mp h₂ with hm | hp
        · simp [beq_eq_false_iff_ne.mpr hm]
        · simp [beq_eq_false_iff_ne.mpr hp]
      simp [hb₁, hb₂, h₁, h₂, Prod.ext_iff]

/-- C9: the greeting map embeds the name verbatim after the six-character
greeting: dropping it recovers the name exactly, and distinct names give
distinct handler results. -/
theorem hello_roundtrip_injective (n₁ n₂ : String) :
    ((hello n₁).getField "message").bind Json.getStr = some ("hello " ++ n₁) ∧
    stripHello ("hello " ++ n₁) = n₁ ∧
    (hello n₁ = hello n₂ → n₁ = n₂) := by
  refine ⟨rfl, ?_, ?_⟩
  · unfold stripHello
    have hdata : ("hello " ++ n₁).data = ("hello ").data ++ n₁.data :=
      String.data_append "hello " n₁
    rw [hdata]
    have h6 : ("hello ").data.length = 6 := rfl
    rw [← h6, List.drop_left]
  · intro h
    have hmsg : ("hello " ++ n₁ : String) = "hello " ++ n₂ := by
      simpa [hello, Json.obj.injEq] using h
    have hdat : ("hello ").data ++ n₁.data = ("hello ").data ++ n₂.data := by
      have := congrArg String.data hmsg
      simpa [String.data_append] using this
    have hd : n₁.data = n₂.data := List.append_cancel_left hdat
    exact congrArg String.mk hd

/-- Witness for C9 at `name = "Ada"`, with the injectivity hypothesis
discharged reflexively. -/
theorem hello_roundtrip_injective_witness :
    stripHello ("hello " ++ "Ada") = "Ada" ∧ ("Ada" : String) = "Ada" :=
  ⟨(hello_roundtrip_injective "Ada" "Ada").2.1,
   (hello_roundtrip_injective "Ada" "Ada").2.2 rfl⟩

end HelloOps
